import Mathlib

/-!
Verification development for the gdal-boots geometry and raster layer
(`gdal_boots/geometry.py` plus the raster warp/union engine specified at the
interface boundary).  Python floats are modelled as exact rationals, Python
`round` as round-half-to-even, and Python exceptions as `Except` / `Option`
results.  Operations of the external GDAL/OGR/GEOS library that the module
merely orchestrates (MakeValid, Union, CoordinateTransformation) appear as
explicit function parameters.
-/

namespace GdalBoots

/-- Python `round(q)` - round to the nearest integer, ties to even. -/
def roundHalfEven (q : ℚ) : ℤ :=
  let f := ⌊q⌋
  let r := q - f
  if r < 1/2 then f
  else if 1/2 < r then f + 1
  else if f % 2 = 0 then f else f + 1

/-- Python `round(q, ndigits)` - round to `ndigits` decimal digits, ties to even. -/
def pyRound (ndigits : ℕ) (q : ℚ) : ℚ :=
  (roundHalfEven (q * 10 ^ ndigits) : ℚ) / 10 ^ ndigits

/-- Per-axis cell count of `calc_best_resolution_bbox`:
`max(1, round(span / resolution + 10e-9))`. -/
def cellsCount (span r : ℚ) : ℤ :=
  max 1 (roundHalfEven (span / r + 10 / 10 ^ 9))

/-- Function `calc_best_resolution_bbox` of `gdal_boots/geometry.py`.  Python float
division raises `ZeroDivisionError` on a zero divisor, modelled as `none`;
the guards mirror the evaluation order (`cells_x` is computed first). -/
def calc_best_resolution_bbox (x_min x_max y_min y_max : ℚ) (rx ry : ℚ) :
    Option (ℚ × ℚ) :=
  let dx := x_max - x_min
  let dy := y_max - y_min
  if rx = 0 then none
  else if ry = 0 then none
  else
    let cells_x : ℤ := cellsCount dx rx
    let cells_y : ℤ := cellsCount dy ry
    some (dx / (cells_x : ℚ), dy / (cells_y : ℚ))

/-- Errors raised by the geometry builder, serializer and repairer.
`unsupportedGeometryType t` models `ValueError(f"\x7bt\x7d is not supported")`
(the `UnsupportedGeometryType` of the specification), `invalidCoordinates`
models a `TypeError` from a point of the wrong arity, and `repairError`
models `RuntimeError(gdal.GetLastErrorMsg())` (the spec `GeometryRepairError`). -/
inductive GeomError where
  | unsupportedGeometryType (typeName : String)
  | invalidCoordinates
  | repairError
deriving DecidableEq

/-- A GeoJSON-shaped mapping: the `type` tag together with its
`coordinates` / `geometries` payload.  Coordinates are exact rationals.
`other` stands for a mapping whose `type` tag has no `create_*` handler
(for example `"Circle"`). -/
inductive GeoJson where
  | point (c : List ℚ)
  | lineString (cs : List (List ℚ))
  | linearRing (cs : List (List ℚ))
  | polygon (rings : List (List (List ℚ)))
  | multiPolygon (polys : List (List (List (List ℚ))))
  | multiLineString (lines : List (List (List ℚ)))
  | geometryCollection (gs : List GeoJson)
  | other (typeName : String)

/-- An `ogr.Geometry` value: the geometry type together with its point data
(child linear rings of a polygon are kept as their point lists). -/
inductive Geom where
  | point (c : List ℚ)
  | lineString (ps : List (List ℚ))
  | linearRing (ps : List (List ℚ))
  | polygon (rings : List (List (List ℚ)))
  | multiPolygon (polys : List (List (List (List ℚ))))
  | multiLineString (lines : List (List (List ℚ)))
  | geometryCollection (gs : List Geom)

/-- Method `ogr.Geometry.GetGeometryName()`. -/
def Geom.name : Geom → String
  | .point _ => "POINT"
  | .lineString _ => "LINESTRING"
  | .linearRing _ => "LINEARRING"
  | .polygon _ => "POLYGON"
  | .multiPolygon _ => "MULTIPOLYGON"
  | .multiLineString _ => "MULTILINESTRING"
  | .geometryCollection _ => "GEOMETRYCOLLECTION"

/-- The children enumerated by `GetGeometryCount()` / `GetGeometryRef(i)`. -/
def Geom.children : Geom → List Geom
  | .point _ => []
  | .lineString _ => []
  | .linearRing _ => []
  | .polygon rings => rings.map Geom.linearRing
  | .multiPolygon polys => polys.map Geom.polygon
  | .multiLineString lines => lines.map Geom.lineString
  | .geometryCollection gs => gs

/-- Method `GeometryBuilder._add_point`: with `flatten` it calls
`AddPoint_2D(*point[:2])` (fails unless at least two components); without
`flatten` it calls `AddPoint(*point)` whose `z` argument defaults to `0`, so a
2-component point is promoted to 3D with `z = 0` and more than three
components are a `TypeError`. -/
def addPoint (flatten : Bool) (c : List ℚ) : Except GeomError (List ℚ) :=
  if flatten then
    match c with
    | x :: y :: _ => .ok [x, y]
    | _ => .error .invalidCoordinates
  else
    match c with
    | [x, y] => .ok [x, y, 0]
    | [x, y, z] => .ok [x, y, z]
    | _ => .error .invalidCoordinates

/-- Method `GeometryBuilder._add_points`: add each point in order. -/
def addPoints (flatten : Bool) : List (List ℚ) → Except GeomError (List (List ℚ))
  | [] => .ok []
  | c :: cs => do
      let p ← addPoint flatten c
      let ps ← addPoints flatten cs
      .ok (p :: ps)

/-- The ring loop of `GeometryBuilder.create_polygon`: one
`create_linearring` per ring. -/
def createRings (flatten : Bool) :
    List (List (List ℚ)) → Except GeomError (List (List (List ℚ)))
  | [] => .ok []
  | r :: rs => do
      let x ← addPoints flatten r
      let xs ← createRings flatten rs
      .ok (x :: xs)

/-- The line loop of `GeometryBuilder.create_multilinestring`: one
`create_linestring` per member. -/
def createLines (flatten : Bool) :
    List (List (List ℚ)) → Except GeomError (List (List (List ℚ)))
  | [] => .ok []
  | l :: ls => do
      let x ← addPoints flatten l
      let xs ← createLines flatten ls
      .ok (x :: xs)

/-- The polygon loop of `GeometryBuilder.create_multipolygon`: one
`create_polygon` per member. -/
def createPolys (flatten : Bool) :
    List (List (List (List ℚ))) → Except GeomError (List (List (List (List ℚ))))
  | [] => .ok []
  | p :: ps => do
      let x ← createRings flatten p
      let xs ← createPolys flatten ps
      .ok (x :: xs)

mutual

/-- Method `GeometryBuilder.create` on a mapping: dispatch on the lower-cased `type`
tag to the `create_*` handler; a tag with no handler raises
`ValueError(f"\x7btag\x7d is not supported")`. -/
def create (flatten : Bool) : GeoJson → Except GeomError Geom
  | .point c => (addPoint flatten c).map Geom.point
  | .lineString cs => (addPoints flatten cs).map Geom.lineString
  | .linearRing cs => (addPoints flatten cs).map Geom.linearRing
  | .polygon rings => (createRings flatten rings).map Geom.polygon
  | .multiPolygon polys => (createPolys flatten polys).map Geom.multiPolygon
  | .multiLineString lines =>
      (createLines flatten lines).map Geom.multiLineString
  | .geometryCollection gs => (createList flatten gs).map Geom.geometryCollection
  | .other typeName => .error (.unsupportedGeometryType typeName.toLower)

/-- Method `GeometryBuilder.create_geometrycollection`: build each member in order. -/
def createList (flatten : Bool) : List GeoJson → Except GeomError (List Geom)
  | [] => .ok []
  | g :: gs => do
      let x ← create flatten g
      let xs ← createList flatten gs
      .ok (x :: xs)

end

/-- Constructor `GeometryGeoJson.__init__`: `self.precision = precision or 15` (so both
`None` and `0` become 15). -/
def effPrecision : Option ℕ → ℕ
  | none => 15
  | some p => if p = 0 then 15 else p

/-- One coordinate of `GeometryGeoJson._get_points`:
`[round(c, precision) for c in p]`. -/
def roundPoint (precision : ℕ) (c : List ℚ) : List ℚ :=
  c.map (pyRound precision)

/-- Method `GeometryGeoJson._get_points` on a line or ring. -/
def roundPoints (precision : ℕ) (cs : List (List ℚ)) : List (List ℚ) :=
  cs.map (roundPoint precision)

mutual

/-- Method `GeometryGeoJson.convert`: dispatch on the lower-cased geometry name to
the `convert_*` handler; there is none for `LINESTRING` or `LINEARRING`, so
those raise `ValueError(f"\x7bname\x7d is not supported")`. -/
def convert (precision : ℕ) : Geom → Except GeomError GeoJson
  | .point c => .ok (.point (roundPoint precision c))
  | .lineString _ => .error (.unsupportedGeometryType "linestring")
  | .linearRing _ => .error (.unsupportedGeometryType "linearring")
  | .polygon rings => .ok (.polygon (rings.map (roundPoints precision)))
  | .multiPolygon polys =>
      .ok (.multiPolygon (polys.map (fun rs => rs.map (roundPoints precision))))
  | .multiLineString lines =>
      .ok (.multiLineString (lines.map (roundPoints precision)))
  | .geometryCollection gs =>
      (convertList precision gs).map GeoJson.geometryCollection

/-- Method `GeometryGeoJson.convert_geometrycollection`: convert each child. -/
def convertList (precision : ℕ) : List Geom → Except GeomError (List GeoJson)
  | [] => .ok []
  | g :: gs => do
      let x ← convert precision g
      let xs ← convertList precision gs
      .ok (x :: xs)

end

mutual

/-- The claimed round-trip target: `g` with every coordinate rounded to the
configured precision. -/
def roundGJ (precision : ℕ) : GeoJson → GeoJson
  | .point c => .point (roundPoint precision c)
  | .lineString cs => .lineString (roundPoints precision cs)
  | .linearRing cs => .linearRing (roundPoints precision cs)
  | .polygon rings => .polygon (rings.map (roundPoints precision))
  | .multiPolygon polys =>
      .multiPolygon (polys.map (fun rs => rs.map (roundPoints precision)))
  | .multiLineString lines => .multiLineString (lines.map (roundPoints precision))
  | .geometryCollection gs => .geometryCollection (roundGJList precision gs)
  | .other typeName => .other typeName

def roundGJList (precision : ℕ) : List GeoJson → List GeoJson
  | [] => []
  | g :: gs => roundGJ precision g :: roundGJList precision gs

end

mutual

/-- Inputs for which the round-trip survives both directions: geometry types
that both the builder and the serializer handle (Point, Polygon,
MultiPolygon, MultiLineString, GeometryCollection of such), with every
coordinate carrying exactly three components. -/
def good3 : GeoJson → Bool
  | .point c => c.length == 3
  | .lineString _ => false
  | .linearRing _ => false
  | .polygon rings => rings.all (fun r => r.all (fun c => c.length == 3))
  | .multiPolygon polys =>
      polys.all (fun rs => rs.all (fun r => r.all (fun c => c.length == 3)))
  | .multiLineString lines => lines.all (fun r => r.all (fun c => c.length == 3))
  | .geometryCollection gs => good3List gs
  | .other _ => false

def good3List : List GeoJson → Bool
  | [] => true
  | g :: gs => good3 g && good3List gs

end

mutual

/-- The geometry value the builder produces from a well-formed 3D mapping:
the identity embedding of the mapping. -/
def toGeom : GeoJson → Geom
  | .point c => .point c
  | .lineString cs => .lineString cs
  | .linearRing cs => .linearRing cs
  | .polygon rings => .polygon rings
  | .multiPolygon polys => .multiPolygon polys
  | .multiLineString lines => .multiLineString lines
  | .geometryCollection gs => .geometryCollection (toGeomList gs)
  | .other _ => .geometryCollection []

def toGeomList : List GeoJson → List Geom
  | [] => []
  | g :: gs => toGeom g :: toGeomList gs

end

mutual

/-- Method `ogr.Geometry.FlattenTo2D()`: drop every coordinate component past the
first two, in place on the receiver. -/
def flattenTo2D : Geom → Geom
  | .point c => .point (c.take 2)
  | .lineString ps => .lineString (ps.map fun c => c.take 2)
  | .linearRing ps => .linearRing (ps.map fun c => c.take 2)
  | .polygon rings => .polygon (rings.map fun r => r.map fun c => c.take 2)
  | .multiPolygon polys =>
      .multiPolygon (polys.map fun rs => rs.map fun r => r.map fun c => c.take 2)
  | .multiLineString lines =>
      .multiLineString (lines.map fun r => r.map fun c => c.take 2)
  | .geometryCollection gs => .geometryCollection (flattenTo2DList gs)

def flattenTo2DList : List Geom → List Geom
  | [] => []
  | g :: gs => flattenTo2D g :: flattenTo2DList gs

end

/-- Function `to_geojson` of `gdal_boots/geometry.py`: with `flatten` it first calls
`geometry.FlattenTo2D()` on the caller geometry, in place, then serializes.
The first component of the result is the caller-visible geometry after the
call. -/
def to_geojson (geometry : Geom) (flatten : Bool) (precision : Option ℕ) :
    Geom × Except GeomError GeoJson :=
  let g1 := if flatten then flattenTo2D geometry else geometry
  (g1, convert (effPrecision precision) g1)

/-- Method `OGRLinearRing::closeRings`: a ring with at least two points whose first
and last points differ gets its first point appended. -/
def closeRing : List (List ℚ) → List (List ℚ)
  | [] => []
  | [p] => [p]
  | f :: p :: rest =>
      if (f :: p :: rest).getLast? = some f then f :: p :: rest
      else (f :: p :: rest) ++ [f]

mutual

/-- Method `ogr.Geometry.CloseRings()`: close the rings of rings and polygons,
recursively through multi-geometries and collections, in place on the
receiver. -/
def closeRings : Geom → Geom
  | .point c => .point c
  | .lineString ps => .lineString ps
  | .linearRing ps => .linearRing (closeRing ps)
  | .polygon rings => .polygon (rings.map closeRing)
  | .multiPolygon polys => .multiPolygon (polys.map fun rs => rs.map closeRing)
  | .multiLineString lines => .multiLineString lines
  | .geometryCollection gs => .geometryCollection (closeRingsList gs)

def closeRingsList : List Geom → List Geom
  | [] => []
  | g :: gs => closeRings g :: closeRingsList gs

end

/-- A ring is closed when it has fewer than two points or its first and last
points coincide. -/
def ringClosed (r : List (List ℚ)) : Bool :=
  decide (r.length < 2) || (r.head? == r.getLast?)

mutual

/-- All rings of the geometry are closed. -/
def ringsClosed : Geom → Bool
  | .point _ => true
  | .lineString _ => true
  | .linearRing ps => ringClosed ps
  | .polygon rings => rings.all ringClosed
  | .multiPolygon polys => polys.all fun rs => rs.all ringClosed
  | .multiLineString _ => true
  | .geometryCollection gs => ringsClosedList gs

def ringsClosedList : List Geom → Bool
  | [] => true
  | g :: gs => ringsClosed g && ringsClosedList gs

end

/-- The geometry names kept by the union loop of `make_valid`. -/
abbrev polygonal (g : Geom) : Prop :=
  g.name = "MULTIPOLYGON" ∨ g.name = "POLYGON"

/-- The cast at the end of `make_valid`:
`ogr.Geometry(ogr.wkbMultiPolygon)` plus `AddGeometry(valid_geometry)`. -/
def wrapMultiPolygon : Geom → Geom
  | .polygon rings => .multiPolygon [rings]
  | g => g

/-- The union loop of `make_valid`: members that are not Polygon or
MultiPolygon are skipped, the rest are unioned into the accumulator. -/
def makeValidUnionLoop (union : Geom → Geom → Geom) (init : Geom)
    (children : List Geom) : Geom :=
  children.foldl
    (fun acc sub =>
      if sub.name = "MULTIPOLYGON" ∨ sub.name = "POLYGON" then union acc sub
      else acc) init

/-- The GeometryCollection branch of `make_valid`: union the polygonal
members, then cast back to MultiPolygon when the input was a MultiPolygon
and the union degraded to a single Polygon. -/
def makeValidCollectionFix (union : Geom → Geom → Geom) (geometryType : String)
    (v : Geom) : Geom :=
  let init : Geom :=
    if geometryType = "MULTIPOLYGON" then .multiPolygon [] else .polygon []
  let u := makeValidUnionLoop union init v.children
  if geometryType = "MULTIPOLYGON" ∧ u.name = "POLYGON" then wrapMultiPolygon u
  else u

/-- Function `make_valid` of `gdal_boots/geometry.py`.  `mkValid` and `union` stand
for the external GEOS `MakeValid()` and `Union()`; `MakeValid` returning no
result is `none` and becomes `RuntimeError` (`repairError`).  The first
component of the result is the caller-visible input geometry after the call:
`geometry.CloseRings()` mutates it in place. -/
def make_valid (mkValid : Geom → Option Geom) (union : Geom → Geom → Geom)
    (geometry : Geom) : Geom × Except GeomError Geom :=
  let g1 := closeRings geometry
  match mkValid g1 with
  | none => (g1, .error .repairError)
  | some v =>
      if v.name = "GEOMETRYCOLLECTION" then
        (g1, .ok (makeValidCollectionFix union g1.name v))
      else (g1, .ok v)

/-- Values of the `osr.SpatialReference.SetAxisMappingStrategy` argument. -/
inductive AxisMappingStrategy where
  | authorityCompliant
  | traditionalGisOrder
deriving DecidableEq

/-- An `osr.SpatialReference` object state: the CRS definition it carries
(opaque payload, e.g. an imported EPSG code) and its axis mapping strategy. -/
structure SpatialReference where
  crs : String
  axisMapping : AxisMappingStrategy
deriving DecidableEq

/-- The spec `TransformError`, carrying the diagnostic message of the
underlying projection library. -/
inductive TransformError where
  | transformError (msg : String)
deriving DecidableEq

/-- The mutable objects visible across a `transform_by_srs` call: spatial
reference objects and geometry objects, addressed by reference. -/
structure GdalState where
  srsHeap : List SpatialReference
  geomHeap : List Geom

/-- Function `transform_by_srs` of `gdal_boots/geometry.py` over the object heap.
`mkTransformation` stands for `osr.CoordinateTransformation` (construction
may fail with a diagnostic message) and `applyTransformation` for
`ogr.Geometry.Transform` with the transformation built from the two spatial
references; both are external.  `Clone()` allocates a copy at the end of the
heap, `SetAxisMappingStrategy` writes the clone in place, and the caller
objects at `geomRef`, `fromRef`, `toRef` are never written.  Dangling
references give `none`. -/
def transform_by_srs
    (mkTransformation : SpatialReference → SpatialReference → Except String Unit)
    (applyTransformation : SpatialReference → SpatialReference → Geom → Geom)
    (st : GdalState) (geomRef fromRef toRef : ℕ) :
    Option (GdalState × Except TransformError ℕ) :=
  match st.srsHeap[fromRef]?, st.srsHeap[toRef]?, st.geomHeap[geomRef]? with
  | some fromSrs, some toSrs, some geom =>
      let h1 := st.srsHeap ++ [fromSrs]
      let fromCloneRef := st.srsHeap.length
      let fromClone := { fromSrs with axisMapping := .traditionalGisOrder }
      let h2 := h1.set fromCloneRef fromClone
      let h3 := h2 ++ [toSrs]
      let toCloneRef := h2.length
      let toClone := { toSrs with axisMapping := .traditionalGisOrder }
      let h4 := h3.set toCloneRef toClone
      match mkTransformation fromClone toClone with
      | .error msg => some ({ st with srsHeap := h4 }, .error (.transformError msg))
      | .ok _ =>
          let resultRef := st.geomHeap.length
          let gh := (st.geomHeap ++ [geom]).set resultRef
            (applyTransformation fromClone toClone geom)
          some ({ srsHeap := h4, geomHeap := gh }, .ok resultRef)
  | _, _, _ => none

/-- Modelled from the spec: the raster warp/union engine
(`RasterDataset.warp` with `extra_ds`, nodata-aware `RasterDataset.union`)
is repository code not under `src/` - only `gdal_boots/geometry.py` is
there.  Following spec section 4.6, per pixel and band the inputs are
composited in order and a later input contributes only where it is
non-nodata.  A contribution is the pixel value paired with the nodata value
of that input for that band (nodata where the footprint does not cover the
pixel). -/
def compositePixel (background : ℤ) (contribs : List (ℤ × ℤ)) : ℤ :=
  contribs.foldl (fun acc c => if c.1 = c.2 then acc else c.1) background

/-- The last non-nodata contribution of the list, background when there is
none. -/
def lastNonNodata (background : ℤ) (contribs : List (ℤ × ℤ)) : ℤ :=
  match (contribs.filter fun c => c.1 != c.2).getLast? with
  | some c => c.1
  | none => background

/-- Modelled from the spec: the merged grid of a warp with auxiliary
datasets.  Each dataset supplies, for band `b` and pixel `p`, its
(value, nodata) pair; the merged value composites them in dataset order. -/
def mergeWarp (background : ℤ) (datasets : List (ℕ → ℕ → ℤ × ℤ)) (b p : ℕ) : ℤ :=
  compositePixel background (datasets.map fun d => d b p)

theorem roundHalfEven_int_add {r : ℚ} (n : ℤ) (h0 : 0 ≤ r) (h1 : r < 1/2) :
    roundHalfEven ((n : ℚ) + r) = n := by
  have hf : ⌊(n : ℚ) + r⌋ = n := by
    rw [add_comm, Int.floor_add_int, Int.floor_eq_zero_iff.mpr ⟨h0, by linarith⟩,
      zero_add]
  simp only [roundHalfEven, hf]
  have : (n : ℚ) + r - (n : ℤ) = r := by ring
  rw [this, if_pos h1]

theorem roundHalfEven_half_up (n : ℤ) :
    roundHalfEven ((n : ℚ) + 1/2 + 10 / 10 ^ 9) = n + 1 := by
  have hf : ⌊(n : ℚ) + 1/2 + 10 / 10 ^ 9⌋ = n := by
    have : (n : ℚ) + 1/2 + 10 / 10 ^ 9 = (1/2 + 10 / 10 ^ 9) + (n : ℚ) := by ring
    rw [this, Int.floor_add_int, Int.floor_eq_zero_iff.mpr ⟨by norm_num, by norm_num⟩,
      zero_add]
  simp only [roundHalfEven, hf]
  have h : (n : ℚ) + 1/2 + 10 / 10 ^ 9 - (n : ℤ) = 1/2 + 10 / 10 ^ 9 := by
    ring
  rw [h, if_neg (by norm_num), if_pos (by norm_num)]

theorem one_le_cellsCount (span r : ℚ) : 1 ≤ cellsCount span r :=
  le_max_left 1 _

theorem cellsCount_int (n : ℤ) (h : 1 ≤ n) {span r : ℚ} (hsr : span / r = (n : ℚ)) :
    cellsCount span r = n := by
  unfold cellsCount
  rw [hsr, roundHalfEven_int_add n (by norm_num) (by norm_num), max_eq_right h]

theorem calc_best_resolution_bbox_eq (x_min x_max y_min y_max : ℚ) {rx ry : ℚ}
    (hrx : rx ≠ 0) (hry : ry ≠ 0) :
    calc_best_resolution_bbox x_min x_max y_min y_max rx ry =
      some ((x_max - x_min) / (cellsCount (x_max - x_min) rx : ℚ),
            (y_max - y_min) / (cellsCount (y_max - y_min) ry : ℚ)) := by
  simp only [calc_best_resolution_bbox, if_neg hrx, if_neg hry]

/-- C4: for every bounding box and nonzero original resolutions,
`calc_best_resolution_bbox` computes per axis
`cell_count = max(1, round(span / orig_resolution + 10e-9))` and returns
`span / cell_count`; the cell count is always at least 1; and the `10e-9`
epsilon makes an exactly-half-cell span round up (`n + 1/2` cells give
`n + 1`). -/
theorem calc_best_resolution_bbox_cells (x_min x_max y_min y_max rx ry : ℚ)
    (hrx : rx ≠ 0) (hry : ry ≠ 0) :
    calc_best_resolution_bbox x_min x_max y_min y_max rx ry =
      some ((x_max - x_min) / (cellsCount (x_max - x_min) rx : ℚ),
            (y_max - y_min) / (cellsCount (y_max - y_min) ry : ℚ)) ∧
    1 ≤ cellsCount (x_max - x_min) rx ∧ 1 ≤ cellsCount (y_max - y_min) ry ∧
    ∀ (n : ℤ) (span r : ℚ), 0 ≤ n → span / r = (n : ℚ) + 1/2 →
      cellsCount span r = n + 1 := by
  refine ⟨calc_best_resolution_bbox_eq x_min x_max y_min y_max hrx hry,
    one_le_cellsCount _ _, one_le_cellsCount _ _, ?_⟩
  intro n span r hn hsr
  unfold cellsCount
  rw [hsr, roundHalfEven_half_up n, max_eq_right (by omega)]

/-- Witness for C4 at the bbox `[0, 8.5] × [0, 1]` with original resolution
`(1, 1)`: the x span is exactly 8.5 cells and rounds up to 9. -/
theorem calc_best_resolution_bbox_cells_witness :
    calc_best_resolution_bbox 0 (17/2) 0 1 1 1 = some (17/18, 1) ∧
    cellsCount (17/2) 1 = 9 := by
  have h := calc_best_resolution_bbox_cells 0 (17/2) 0 1 1 1
    (by norm_num) (by norm_num)
  have h9 : cellsCount (17/2) 1 = 9 := by
    have := h.2.2.2 8 (17/2) 1 (by norm_num) (by norm_num)
    simpa using this
  have h1 : cellsCount (1 : ℚ) 1 = 1 := cellsCount_int 1 le_rfl (by norm_num)
  refine ⟨?_, h9⟩
  rw [h.1]
  norm_num [h9, h1]

/-- C5 (amended): whenever both spans and both original resolutions are
nonzero, feeding the resolution returned by `calc_best_resolution_bbox` back
into `calc_best_resolution_bbox` on the same bounding box returns that same
resolution. -/
theorem calc_best_resolution_bbox_fixed_point
    (x_min x_max y_min y_max rx ry r1 r2 : ℚ)
    (hdx : x_max - x_min ≠ 0) (hdy : y_max - y_min ≠ 0)
    (hrx : rx ≠ 0) (hry : ry ≠ 0)
    (h : calc_best_resolution_bbox x_min x_max y_min y_max rx ry = some (r1, r2)) :
    calc_best_resolution_bbox x_min x_max y_min y_max r1 r2 = some (r1, r2) := by
  rw [calc_best_resolution_bbox_eq x_min x_max y_min y_max hrx hry] at h
  set dx := x_max - x_min with hdxdef
  set dy := y_max - y_min with hdydef
  set cx := cellsCount dx rx with hcx
  set cy := cellsCount dy ry with hcy
  have hcx1 : 1 ≤ cx := one_le_cellsCount _ _
  have hcy1 : 1 ≤ cy := one_le_cellsCount _ _
  have hcxq : (cx : ℚ) ≠ 0 := by positivity
  have hcyq : (cy : ℚ) ≠ 0 := by positivity
  have hr1 : r1 = dx / (cx : ℚ) := by
    have := h
    simp only [Option.some.injEq, Prod.mk.injEq] at this
    exact this.1.symm
  have hr2 : r2 = dy / (cy : ℚ) := by
    have := h
    simp only [Option.some.injEq, Prod.mk.injEq] at this
    exact this.2.symm
  have hr1ne : r1 ≠ 0 := by rw [hr1]; exact div_ne_zero hdx hcxq
  have hr2ne : r2 ≠ 0 := by rw [hr2]; exact div_ne_zero hdy hcyq
  have hdiv1 : dx / r1 = (cx : ℚ) := by
    rw [hr1, div_div_eq_mul_div, mul_comm, mul_div_assoc, div_self hdx, mul_one]
  have hdiv2 : dy / r2 = (cy : ℚ) := by
    rw [hr2, div_div_eq_mul_div, mul_comm, mul_div_assoc, div_self hdy, mul_one]
  have hc1 : cellsCount dx r1 = cx := cellsCount_int cx hcx1 hdiv1
  have hc2 : cellsCount dy r2 = cy := cellsCount_int cy hcy1 hdiv2
  rw [calc_best_resolution_bbox_eq x_min x_max y_min y_max hr1ne hr2ne,
    ← hdxdef, ← hdydef, hc1, hc2, ← hr1, ← hr2]

/-- Witness for C5 at the bbox `[0, 3] × [0, 2]` with original resolution
`(2, 2)`: the first call returns `(3/2, 2)` and feeding `(3/2, 2)` back
returns `(3/2, 2)` again. -/
theorem calc_best_resolution_bbox_fixed_point_witness :
    calc_best_resolution_bbox 0 3 0 2 2 2 = some (3/2, 2) ∧
    calc_best_resolution_bbox 0 3 0 2 (3/2) 2 = some (3/2, 2) := by
  have hcx : cellsCount (3 - 0 : ℚ) 2 = 2 := by
    have h32 : ((3 : ℚ) - 0) / 2 = ((1 : ℤ) : ℚ) + 1/2 := by norm_num
    unfold cellsCount
    rw [h32, roundHalfEven_half_up]
    norm_num
  have hcy : cellsCount (2 - 0 : ℚ) 2 = 1 := cellsCount_int 1 le_rfl (by norm_num)
  have h1 : calc_best_resolution_bbox 0 3 0 2 2 2 = some (3/2, 2) := by
    rw [calc_best_resolution_bbox_eq 0 3 0 2 (by norm_num) (by norm_num), hcx, hcy]
    norm_num
  exact ⟨h1, calc_best_resolution_bbox_fixed_point 0 3 0 2 2 2 (3/2) 2
    (by norm_num) (by norm_num) (by norm_num) (by norm_num) h1⟩

/-- Counterexample for C5 as stated: on the degenerate bounding box
`[0, 0] × [0, 1]` (for instance the envelope of a point) with original
resolution `(1, 1)`, the first call returns resolution `(0, 1)`, and feeding
`(0, 1)` back in raises `ZeroDivisionError` (modelled `none`) instead of
returning `(0, 1)` again. -/
theorem calc_best_resolution_bbox_fixed_point_counterexample :
    calc_best_resolution_bbox 0 0 0 1 1 1 = some (0, 1) ∧
    calc_best_resolution_bbox 0 0 0 1 0 1 = none := by
  constructor
  · have hc0 : cellsCount (0 - 0 : ℚ) 1 = 1 := by
      have h0 : ((0 : ℚ) - 0) / 1 + 10 / 10 ^ 9 = ((0 : ℤ) : ℚ) + 10 / 10 ^ 9 := by
        norm_num
      unfold cellsCount
      rw [h0, roundHalfEven_int_add 0 (by norm_num) (by norm_num)]
      norm_num
    have hc1 : cellsCount (1 - 0 : ℚ) 1 = 1 := cellsCount_int 1 le_rfl (by norm_num)
    rw [calc_best_resolution_bbox_eq 0 0 0 1 (by norm_num) (by norm_num), hc0, hc1]
    norm_num
  · simp [calc_best_resolution_bbox]

theorem roundHalfEven_intCast (n : ℤ) : roundHalfEven (n : ℚ) = n := by
  have h := roundHalfEven_int_add (r := 0) n le_rfl (by norm_num)
  simpa using h

theorem pyRound_intCast (p : ℕ) (n : ℤ) : pyRound p (n : ℚ) = n := by
  unfold pyRound
  have h : (n : ℚ) * 10 ^ p = ((n * 10 ^ p : ℤ) : ℚ) := by push_cast; ring
  rw [h, roundHalfEven_intCast]
  push_cast
  rw [mul_div_assoc, div_self (by positivity), mul_one]

theorem addPoint_three : ∀ {c : List ℚ}, c.length = 3 → addPoint false c = .ok c
  | [_, _, _], _ => rfl

theorem addPoints_three {cs : List (List ℚ)}
    (h : (cs.all fun c => c.length == 3) = true) : addPoints false cs = .ok cs := by
  induction cs with
  | nil => rfl
  | cons c cs ih =>
      rw [List.all_cons, Bool.and_eq_true, beq_iff_eq] at h
      unfold addPoints
      rw [addPoint_three h.1, ih h.2]
      rfl

theorem createRings_three {rs : List (List (List ℚ))}
    (h : (rs.all fun r => r.all fun c => c.length == 3) = true) :
    createRings false rs = .ok rs := by
  induction rs with
  | nil => rfl
  | cons r rs ih =>
      rw [List.all_cons, Bool.and_eq_true] at h
      unfold createRings
      rw [addPoints_three h.1, ih h.2]
      rfl

theorem createLines_three {ls : List (List (List ℚ))}
    (h : (ls.all fun r => r.all fun c => c.length == 3) = true) :
    createLines false ls = .ok ls := by
  induction ls with
  | nil => rfl
  | cons l ls ih =>
      rw [List.all_cons, Bool.and_eq_true] at h
      unfold createLines
      rw [addPoints_three h.1, ih h.2]
      rfl

theorem createPolys_three {ps : List (List (List (List ℚ)))}
    (h : (ps.all fun rs => rs.all fun r => r.all fun c => c.length == 3) = true) :
    createPolys false ps = .ok ps := by
  induction ps with
  | nil => rfl
  | cons q ps ih =>
      rw [List.all_cons, Bool.and_eq_true] at h
      unfold createPolys
      rw [createRings_three h.1, ih h.2]
      rfl

mutual

theorem create_good3 (g : GeoJson) (h : good3 g = true) :
    create false g = .ok (toGeom g) := by
  cases g with
  | point c =>
      rw [good3, beq_iff_eq] at h
      rw [create, toGeom, addPoint_three h]
      rfl
  | lineString cs => simp [good3] at h
  | linearRing cs => simp [good3] at h
  | polygon rings =>
      rw [good3] at h
      rw [create, toGeom, createRings_three h]
      rfl
  | multiPolygon polys =>
      rw [good3] at h
      rw [create, toGeom, createPolys_three h]
      rfl
  | multiLineString lines =>
      rw [good3] at h
      rw [create, toGeom, createLines_three h]
      rfl
  | geometryCollection gs =>
      rw [good3] at h
      rw [create, toGeom, createList_good3 gs h]
      rfl
  | other t => simp [good3] at h

theorem createList_good3 (gs : List GeoJson) (h : good3List gs = true) :
    createList false gs = .ok (toGeomList gs) := by
  cases gs with
  | nil => rfl
  | cons g gs =>
      rw [good3List, Bool.and_eq_true] at h
      rw [createList, create_good3 g h.1, createList_good3 gs h.2, toGeomList]
      rfl

end

mutual

theorem convert_toGeom (p : ℕ) (g : GeoJson) (h : good3 g = true) :
    convert p (toGeom g) = .ok (roundGJ p g) := by
  cases g with
  | point c => rfl
  | lineString cs => simp [good3] at h
  | linearRing cs => simp [good3] at h
  | polygon rings => rfl
  | multiPolygon polys => rfl
  | multiLineString lines => rfl
  | geometryCollection gs =>
      rw [good3] at h
      rw [toGeom, convert, convertList_toGeomList p gs h, roundGJ]
      rfl
  | other t => simp [good3] at h

theorem convertList_toGeomList (p : ℕ) (gs : List GeoJson)
    (h : good3List gs = true) :
    convertList p (toGeomList gs) = .ok (roundGJList p gs) := by
  cases gs with
  | nil => rfl
  | cons g gs =>
      rw [good3List, Bool.and_eq_true] at h
      rw [toGeomList, convertList, convert_toGeom p g h.1,
        convertList_toGeomList p gs h.2, roundGJList]
      rfl

end

/-- C1 (amended): for every geometry of a type that both the builder and the
serializer handle (Point, Polygon, MultiPolygon, MultiLineString, and
GeometryCollections of such) whose coordinates all carry exactly three
components, serializing the geometry built with flattening disabled returns
the input GeoJSON-shaped mapping with every coordinate rounded at the
configured precision. -/
theorem serialize_build_roundtrip (precision : ℕ) (g : GeoJson)
    (h : good3 g = true) :
    (create false g).bind (convert precision) = .ok (roundGJ precision g) := by
  rw [create_good3 g h]
  exact convert_toGeom precision g h

/-- Witness for C1 (amended) at the 3D point `[1, 2, 3]` with the default
precision 15. -/
theorem serialize_build_roundtrip_witness :
    good3 (GeoJson.point [1, 2, 3]) = true ∧
    (create false (GeoJson.point [1, 2, 3])).bind (convert 15) =
      .ok (GeoJson.point [1, 2, 3]) := by
  have hg : good3 (GeoJson.point [1, 2, 3]) = true := rfl
  refine ⟨hg, ?_⟩
  rw [serialize_build_roundtrip 15 _ hg]
  have h1 : pyRound 15 (1 : ℚ) = 1 := by simpa using pyRound_intCast 15 1
  have h2 : pyRound 15 (2 : ℚ) = 2 := by simpa using pyRound_intCast 15 2
  have h3 : pyRound 15 (3 : ℚ) = 3 := by simpa using pyRound_intCast 15 3
  simp [roundGJ, roundPoint, h1, h2, h3]

/-- Counterexample for C1 as stated: a LineString is in the claimed supported
list and the builder accepts it, but `GeometryGeoJson` has no
`convert_linestring` handler, so serializing the built geometry raises the
unsupported-type error instead of returning the mapping. -/
theorem serialize_build_roundtrip_counterexample :
    (create false (GeoJson.lineString [[0, 0, 0], [1, 1, 0]])).bind (convert 15) =
      .error (.unsupportedGeometryType "linestring") ∧
    (create false (GeoJson.lineString [[0, 0, 0], [1, 1, 0]])).bind (convert 15) ≠
      .ok (roundGJ 15 (GeoJson.lineString [[0, 0, 0], [1, 1, 0]])) := by
  have h1 : (create false (GeoJson.lineString [[0, 0, 0], [1, 1, 0]])).bind
      (convert 15) = .error (.unsupportedGeometryType "linestring") := rfl
  refine ⟨h1, ?_⟩
  rw [h1]
  simp

/-- C6: a mapping whose `type` tag has no registered `create_*` handler (for
example `"Circle"`) fails in the builder with the unsupported-type error for
the lower-cased tag, and a geometry whose type name has no `convert_*`
handler fails in the serializer with the same error kind. -/
theorem unsupported_geometry_type_errors :
    (∀ (flatten : Bool) (t : String),
      create flatten (.other t) = .error (.unsupportedGeometryType t.toLower)) ∧
    (∀ (p : ℕ) (cs : List (List ℚ)),
      convert p (.lineString cs) = .error (.unsupportedGeometryType "linestring") ∧
      convert p (.linearRing cs) =
        .error (.unsupportedGeometryType "linearring")) :=
  ⟨fun _ _ => rfl, fun _ _ => ⟨rfl, rfl⟩⟩

/-- C9 (amended): with flattening disabled `to_geojson` leaves the caller
geometry unchanged for every precision; with flattening enabled the caller
geometry is flattened to 2D in place before serialization. -/
theorem to_geojson_frame (g : Geom) (precision : Option ℕ) :
    (to_geojson g false precision).1 = g ∧
    (to_geojson g true precision).1 = flattenTo2D g :=
  ⟨rfl, rfl⟩

/-- Counterexample for C9 as stated: with flattening enabled `to_geojson`
calls `FlattenTo2D()` on the caller geometry, so serializing a 3D point
leaves the caller object flattened to 2D, not unchanged. -/
theorem to_geojson_frame_counterexample :
    (to_geojson (Geom.point [1, 2, 3]) true none).1 = Geom.point [1, 2] ∧
    (to_geojson (Geom.point [1, 2, 3]) true none).1 ≠ Geom.point [1, 2, 3] := by
  have h0 : (to_geojson (Geom.point [1, 2, 3]) true none).1 = Geom.point [1, 2] :=
    rfl
  refine ⟨h0, ?_⟩
  rw [h0]
  simp

theorem ringClosed_closeRing (r : List (List ℚ)) :
    ringClosed (closeRing r) = true := by
  match r with
  | [] => rfl
  | [p] => rfl
  | f :: p :: rest =>
      rw [closeRing]
      by_cases h : (f :: p :: rest).getLast? = some f
      · rw [if_pos h]
        simp [ringClosed, h]
      · rw [if_neg h]
        unfold ringClosed
        rw [List.getLast?_concat]
        simp

mutual

theorem ringsClosed_closeRings (g : Geom) : ringsClosed (closeRings g) = true := by
  cases g with
  | point c => rfl
  | lineString ps => rfl
  | linearRing ps =>
      rw [closeRings, ringsClosed]
      exact ringClosed_closeRing ps
  | polygon rings =>
      rw [closeRings, ringsClosed, List.all_map]
      exact List.all_eq_true.mpr fun r _ => ringClosed_closeRing r
  | multiPolygon polys =>
      rw [closeRings, ringsClosed, List.all_map]
      refine List.all_eq_true.mpr fun rs _ => ?_
      simp only [Function.comp, List.all_map]
      exact List.all_eq_true.mpr fun r _ => ringClosed_closeRing r
  | multiLineString lines => rfl
  | geometryCollection gs =>
      rw [closeRings, ringsClosed]
      exact ringsClosedList_closeRingsList gs

theorem ringsClosedList_closeRingsList (gs : List Geom) :
    ringsClosedList (closeRingsList gs) = true := by
  cases gs with
  | nil => rfl
  | cons g gs =>
      rw [closeRingsList, ringsClosedList, ringsClosed_closeRings g,
        ringsClosedList_closeRingsList gs]
      rfl

end

/-- C10: `make_valid` mutates the caller geometry in place before repairing:
whatever the external make-valid and union do, the caller-visible input after
the call is `CloseRings()` of the original, and all its rings are closed. -/
theorem make_valid_mutates_input (mkValid : Geom → Option Geom)
    (union : Geom → Geom → Geom) (g : Geom) :
    (make_valid mkValid union g).1 = closeRings g ∧
    ringsClosed (closeRings g) = true := by
  refine ⟨?_, ringsClosed_closeRings g⟩
  cases h : mkValid (closeRings g) with
  | none => simp [make_valid, h]
  | some v =>
      by_cases hv : v.name = "GEOMETRYCOLLECTION"
      · simp [make_valid, h, hv]
      · simp [make_valid, h, hv]

theorem closeRings_name (g : Geom) : (closeRings g).name = g.name := by
  cases g <;> rfl

theorem makeValidUnionLoop_polygonal (union : Geom → Geom → Geom)
    (hu : ∀ a b, polygonal a → polygonal b → polygonal (union a b))
    (l : List Geom) (acc : Geom) (hacc : polygonal acc) :
    polygonal (makeValidUnionLoop union acc l) := by
  induction l generalizing acc with
  | nil => exact hacc
  | cons x l ih =>
      rw [makeValidUnionLoop, List.foldl_cons]
      by_cases hx : x.name = "MULTIPOLYGON" ∨ x.name = "POLYGON"
      · rw [if_pos hx]
        exact ih _ (hu _ _ hacc hx)
      · rw [if_neg hx]
        exact ih _ hacc

theorem eq_polygon_of_name {u : Geom} (h : u.name = "POLYGON") :
    ∃ rings, u = .polygon rings := by
  cases u with
  | polygon rings => exact ⟨rings, rfl⟩
  | point c => exact absurd h (by simp [Geom.name])
  | lineString ps => exact absurd h (by simp [Geom.name])
  | linearRing ps => exact absurd h (by simp [Geom.name])
  | multiPolygon polys => exact absurd h (by simp [Geom.name])
  | multiLineString lines => exact absurd h (by simp [Geom.name])
  | geometryCollection gs => exact absurd h (by simp [Geom.name])

theorem makeValidCollectionFix_polygonal (union : Geom → Geom → Geom)
    (hu : ∀ a b, polygonal a → polygonal b → polygonal (union a b))
    (gt : String) (v : Geom) :
    polygonal (makeValidCollectionFix union gt v) ∧
    (gt = "MULTIPOLYGON" →
      (makeValidCollectionFix union gt v).name = "MULTIPOLYGON") := by
  unfold makeValidCollectionFix
  have hinit : polygonal
      (if gt = "MULTIPOLYGON" then Geom.multiPolygon [] else Geom.polygon []) := by
    by_cases hgt : gt = "MULTIPOLYGON"
    · rw [if_pos hgt]; exact Or.inl rfl
    · rw [if_neg hgt]; exact Or.inr rfl
  have hup := makeValidUnionLoop_polygonal union hu v.children _ hinit
  by_cases hc : gt = "MULTIPOLYGON" ∧
      (makeValidUnionLoop union
        (if gt = "MULTIPOLYGON" then Geom.multiPolygon [] else Geom.polygon [])
        v.children).name = "POLYGON"
  · rw [if_pos hc]
    obtain ⟨rings, hru⟩ := eq_polygon_of_name hc.2
    rw [hru, wrapMultiPolygon]
    exact ⟨Or.inl rfl, fun _ => rfl⟩
  · rw [if_neg hc]
    refine ⟨hup, fun hgt => ?_⟩
    rcases hup with hm | hp
    · exact hm
    · exact absurd ⟨hgt, hp⟩ hc

/-- C3 (amended): when repair succeeds and the external union of polygonal
geometries is polygonal, the repaired geometry is never a raw
GeometryCollection; and whenever the make-valid step yields a
GeometryCollection for a MultiPolygon input, the result is cast back to a
MultiPolygon.  (When make-valid itself returns a bare Polygon for a
MultiPolygon input, the cast branch is not reached and that Polygon is
returned as is.) -/
theorem make_valid_result_never_collection (mkValid : Geom → Option Geom)
    (union : Geom → Geom → Geom) (g v r : Geom)
    (hu : ∀ a b, polygonal a → polygonal b → polygonal (union a b))
    (hpoly : polygonal g)
    (hmk : mkValid (closeRings g) = some v)
    (hr : (make_valid mkValid union g).2 = .ok r) :
    r.name ≠ "GEOMETRYCOLLECTION" ∧
    (g.name = "MULTIPOLYGON" → v.name = "GEOMETRYCOLLECTION" →
      r.name = "MULTIPOLYGON") := by
  simp only [make_valid, hmk] at hr
  by_cases hv : v.name = "GEOMETRYCOLLECTION"
  · rw [if_pos hv] at hr
    simp only [Except.ok.injEq] at hr
    have hfix := makeValidCollectionFix_polygonal union hu (closeRings g).name v
    subst hr
    constructor
    · rcases hfix.1 with hm | hp
      · rw [hm]; simp
      · rw [hp]; simp
    · intro hg _
      exact hfix.2 ((closeRings_name g).trans hg)
  · rw [if_neg hv] at hr
    simp only [Except.ok.injEq] at hr
    subst hr
    exact ⟨hv, fun _ hvc => absurd hvc hv⟩

/-- Witness for C3 (amended): a MultiPolygon input whose make-valid result is
a mixed GeometryCollection (one polygon member, one point member), with a
union that keeps its left argument. -/
theorem make_valid_result_never_collection_witness :
    (make_valid
        (fun _ => some (Geom.geometryCollection
          [Geom.polygon [[[0, 0], [1, 0], [1, 1], [0, 0]]], Geom.point [5, 5]]))
        (fun a _ => a)
        (Geom.multiPolygon [[[[0, 0], [1, 0], [1, 1], [0, 0]]]])).2 =
      .ok (Geom.multiPolygon []) ∧
    (Geom.multiPolygon [] : Geom).name ≠ "GEOMETRYCOLLECTION" ∧
    (Geom.multiPolygon [] : Geom).name = "MULTIPOLYGON" := by
  have hr : (make_valid
      (fun _ => some (Geom.geometryCollection
        [Geom.polygon [[[0, 0], [1, 0], [1, 1], [0, 0]]], Geom.point [5, 5]]))
      (fun a _ => a)
      (Geom.multiPolygon [[[[0, 0], [1, 0], [1, 1], [0, 0]]]])).2 =
      .ok (Geom.multiPolygon []) := by
    simp [make_valid, makeValidCollectionFix, makeValidUnionLoop, closeRings,
      closeRing, Geom.name, Geom.children]
  have h := make_valid_result_never_collection
    (fun _ => some (Geom.geometryCollection
      [Geom.polygon [[[0, 0], [1, 0], [1, 1], [0, 0]]], Geom.point [5, 5]]))
    (fun a _ => a)
    (Geom.multiPolygon [[[[0, 0], [1, 0], [1, 1], [0, 0]]]])
    (Geom.geometryCollection
      [Geom.polygon [[[0, 0], [1, 0], [1, 1], [0, 0]]], Geom.point [5, 5]])
    (Geom.multiPolygon [])
    (fun a b pa pb => pa) (Or.inl rfl) rfl hr
  exact ⟨hr, h.1, h.2 rfl rfl⟩

/-- Counterexample for C3 as stated: the cast back to MultiPolygon happens
only in the GeometryCollection branch, so when the external make-valid
returns a bare Polygon for a MultiPolygon input (as GEOS does when the
members of an invalid MultiPolygon merge into one polygon), `make_valid`
returns that Polygon, not a MultiPolygon. -/
theorem make_valid_multipolygon_counterexample :
    (make_valid (fun _ => some (Geom.polygon [[[0, 0], [2, 0], [2, 2], [0, 0]]]))
        (fun a _ => a)
        (Geom.multiPolygon [[[[0, 0], [1, 0], [1, 1], [0, 0]]]])).2 =
      .ok (Geom.polygon [[[0, 0], [2, 0], [2, 2], [0, 0]]]) ∧
    (Geom.polygon [[[0, 0], [2, 0], [2, 2], [0, 0]]] : Geom).name ≠
      "MULTIPOLYGON" := by
  constructor
  · simp [make_valid, Geom.name]
  · simp [Geom.name]

theorem compositePixel_append (bg : ℤ) (cs : List (ℤ × ℤ)) (c : ℤ × ℤ) :
    compositePixel bg (cs ++ [c]) =
      if c.1 = c.2 then compositePixel bg cs else c.1 := by
  unfold compositePixel
  rw [List.foldl_append]
  rfl

theorem lastNonNodata_append (bg : ℤ) (cs : List (ℤ × ℤ)) (c : ℤ × ℤ) :
    lastNonNodata bg (cs ++ [c]) =
      if c.1 = c.2 then lastNonNodata bg cs else c.1 := by
  unfold lastNonNodata
  rw [List.filter_append]
  by_cases h : c.1 = c.2
  · rw [if_pos h]
    have hf : List.filter (fun c => c.1 != c.2) [c] = [] := by
      simp [List.filter_cons, h]
    rw [hf, List.append_nil]
  · rw [if_neg h]
    have hf : List.filter (fun c => c.1 != c.2) [c] = [c] := by
      simp [List.filter_cons, h]
    rw [hf, List.getLast?_concat]

/-- C2: per pixel and band, the composited warp/union output equals the last
non-nodata contribution in dataset order, and a contribution whose value
equals its nodata value (a nodata pixel of a later dataset) never changes
the accumulated value. -/
theorem warp_nodata_compositing :
    (∀ (bg : ℤ) (contribs : List (ℤ × ℤ)),
      compositePixel bg contribs = lastNonNodata bg contribs) ∧
    (∀ (bg : ℤ) (contribs : List (ℤ × ℤ)) (v : ℤ),
      compositePixel bg (contribs ++ [(v, v)]) = compositePixel bg contribs) ∧
    (∀ (bg : ℤ) (datasets : List (ℕ → ℕ → ℤ × ℤ)) (b p : ℕ),
      mergeWarp bg datasets b p =
        lastNonNodata bg (datasets.map fun d => d b p)) := by
  have hmain : ∀ (bg : ℤ) (contribs : List (ℤ × ℤ)),
      compositePixel bg contribs = lastNonNodata bg contribs := by
    intro bg contribs
    induction contribs using List.reverseRecOn with
    | nil => rfl
    | append_singleton cs c ih =>
        rw [compositePixel_append, lastNonNodata_append, ih]
  refine ⟨hmain, ?_, ?_⟩
  · intro bg contribs v
    rw [compositePixel_append]
    simp
  · intro bg ds b p
    rw [mergeWarp, hmain]

/-- C7: when the underlying coordinate transformation cannot be constructed
for the axis-normalized pair, `transform_by_srs` fails with a
`TransformError` carrying the underlying diagnostic message. -/
theorem transform_by_srs_error
    (mkT : SpatialReference → SpatialReference → Except String Unit)
    (applyT : SpatialReference → SpatialReference → Geom → Geom)
    (st : GdalState) (geomRef fromRef toRef : ℕ)
    (fromSrs toSrs : SpatialReference) (geom : Geom) (msg : String)
    (hf : st.srsHeap[fromRef]? = some fromSrs)
    (ht : st.srsHeap[toRef]? = some toSrs)
    (hg : st.geomHeap[geomRef]? = some geom)
    (hmk : mkT { fromSrs with axisMapping := .traditionalGisOrder }
      { toSrs with axisMapping := .traditionalGisOrder } = .error msg) :
    (transform_by_srs mkT applyT st geomRef fromRef toRef).map Prod.snd =
      some (.error (.transformError msg)) := by
  simp only [transform_by_srs, hf, ht, hg, hmk]
  rfl

/-- Witness for C7: a two-object heap where the transformation constructor
rejects the pair with a diagnostic. -/
theorem transform_by_srs_error_witness :
    (transform_by_srs (fun _ _ => .error "unsupported CRS pair")
        (fun _ _ g => g)
        ⟨[⟨"EPSG:4326", .authorityCompliant⟩, ⟨"EPSG:3857", .authorityCompliant⟩],
          [Geom.point [27, 53]]⟩ 0 0 1).map Prod.snd =
      some (.error (.transformError "unsupported CRS pair")) :=
  transform_by_srs_error (fun _ _ => .error "unsupported CRS pair")
    (fun _ _ g => g)
    ⟨[⟨"EPSG:4326", .authorityCompliant⟩, ⟨"EPSG:3857", .authorityCompliant⟩],
      [Geom.point [27, 53]]⟩ 0 0 1
    ⟨"EPSG:4326", .authorityCompliant⟩ ⟨"EPSG:3857", .authorityCompliant⟩
    (Geom.point [27, 53]) "unsupported CRS pair" rfl rfl rfl rfl

theorem heap_read_preserved {α : Type} {l : List α} {i : ℕ} {a : α} (b c : α)
    (h : l[i]? = some a) : ((l ++ [b]).set l.length c)[i]? = some a := by
  have hi : i < l.length := (List.getElem?_eq_some_iff.mp h).1
  rw [List.getElem?_set_ne (by omega), List.getElem?_append_left hi]
  exact h

theorem heap_read_new {α : Type} (l : List α) (b c : α) :
    ((l ++ [b]).set l.length c)[l.length]? = some c := by
  rw [List.getElem?_set_self (by simp)]

/-- C8: on success, `transform_by_srs` leaves all three caller objects
unchanged, places the two clones (with the traditional axis order forced on
them, never on the originals) at fresh references, builds the transformation
from the axis-normalized clones, and returns a fresh geometry reference
holding the transformed clone of the input geometry. -/
theorem transform_by_srs_frame
    (mkT : SpatialReference → SpatialReference → Except String Unit)
    (applyT : SpatialReference → SpatialReference → Geom → Geom)
    (st : GdalState) (geomRef fromRef toRef : ℕ)
    (fromSrs toSrs : SpatialReference) (geom : Geom)
    (st' : GdalState) (resRef : ℕ)
    (hf : st.srsHeap[fromRef]? = some fromSrs)
    (ht : st.srsHeap[toRef]? = some toSrs)
    (hg : st.geomHeap[geomRef]? = some geom)
    (heq : transform_by_srs mkT applyT st geomRef fromRef toRef =
      some (st', .ok resRef)) :
    st'.srsHeap[fromRef]? = some fromSrs ∧
    st'.srsHeap[toRef]? = some toSrs ∧
    st'.geomHeap[geomRef]? = some geom ∧
    st'.srsHeap[st.srsHeap.length]? =
      some { fromSrs with axisMapping := .traditionalGisOrder } ∧
    st'.srsHeap[st.srsHeap.length + 1]? =
      some { toSrs with axisMapping := .traditionalGisOrder } ∧
    resRef = st.geomHeap.length ∧ resRef ≠ geomRef ∧
    st'.geomHeap[resRef]? =
      some (applyT { fromSrs with axisMapping := .traditionalGisOrder }
        { toSrs with axisMapping := .traditionalGisOrder } geom) := by
  have hgl : geomRef < st.geomHeap.length := (List.getElem?_eq_some_iff.mp hg).1
  simp only [transform_by_srs, hf, ht, hg] at heq
  cases hmk : mkT { fromSrs with axisMapping := .traditionalGisOrder }
      { toSrs with axisMapping := .traditionalGisOrder } with
  | error m => rw [hmk] at heq; simp at heq
  | ok u =>
      rw [hmk] at heq
      simp only [Option.some.injEq, Prod.mk.injEq, Except.ok.injEq] at heq
      obtain ⟨hst, hres⟩ := heq
      subst hres
      have hlen2 : ((st.srsHeap ++ [fromSrs]).set st.srsHeap.length
          { fromSrs with axisMapping := .traditionalGisOrder }).length =
          st.srsHeap.length + 1 := by simp
      refine ⟨?_, ?_, ?_, ?_, ?_, rfl, by omega, ?_⟩
      · rw [← hst]
        exact heap_read_preserved _ _ (heap_read_preserved _ _ hf)
      · rw [← hst]
        exact heap_read_preserved _ _ (heap_read_preserved _ _ ht)
      · rw [← hst]
        exact heap_read_preserved _ _ hg
      · rw [← hst]
        exact heap_read_preserved _ _ (heap_read_new _ _ _)
      · rw [← hst]
        show (((st.srsHeap ++ [fromSrs]).set st.srsHeap.length
            { fromSrs with axisMapping := .traditionalGisOrder } ++ [toSrs]).set
            ((st.srsHeap ++ [fromSrs]).set st.srsHeap.length
              { fromSrs with axisMapping := .traditionalGisOrder }).length
            { toSrs with axisMapping := .traditionalGisOrder })[st.srsHeap.length + 1]? =
          some { toSrs with axisMapping := .traditionalGisOrder }
        rw [← hlen2]
        exact heap_read_new _ _ _
      · rw [← hst]
        exact heap_read_new _ _ _

/-- Witness for C8: a concrete heap with two spatial references and one
geometry; the call succeeds, the three caller objects are unchanged and the
result is the fresh reference 1. -/
theorem transform_by_srs_frame_witness :
    transform_by_srs (fun _ _ => .ok ()) (fun _ _ g => g)
      ⟨[⟨"EPSG:4326", .authorityCompliant⟩, ⟨"EPSG:3857", .authorityCompliant⟩],
        [Geom.point [27, 53]]⟩ 0 0 1 =
      some (⟨[⟨"EPSG:4326", .authorityCompliant⟩,
        ⟨"EPSG:3857", .authorityCompliant⟩,
        ⟨"EPSG:4326", .traditionalGisOrder⟩,
        ⟨"EPSG:3857", .traditionalGisOrder⟩],
        [Geom.point [27, 53], Geom.point [27, 53]]⟩, .ok 1) ∧
    (⟨[⟨"EPSG:4326", .authorityCompliant⟩,
        ⟨"EPSG:3857", .authorityCompliant⟩,
        ⟨"EPSG:4326", .traditionalGisOrder⟩,
        ⟨"EPSG:3857", .traditionalGisOrder⟩],
        [Geom.point [27, 53], Geom.point [27, 53]]⟩ : GdalState).srsHeap[0]? =
      some ⟨"EPSG:4326", .authorityCompliant⟩ ∧
    (⟨[⟨"EPSG:4326", .authorityCompliant⟩,
        ⟨"EPSG:3857", .authorityCompliant⟩,
        ⟨"EPSG:4326", .traditionalGisOrder⟩,
        ⟨"EPSG:3857", .traditionalGisOrder⟩],
        [Geom.point [27, 53], Geom.point [27, 53]]⟩ : GdalState).srsHeap[1]? =
      some ⟨"EPSG:3857", .authorityCompliant⟩ ∧
    (⟨[⟨"EPSG:4326", .authorityCompliant⟩,
        ⟨"EPSG:3857", .authorityCompliant⟩,
        ⟨"EPSG:4326", .traditionalGisOrder⟩,
        ⟨"EPSG:3857", .traditionalGisOrder⟩],
        [Geom.point [27, 53], Geom.point [27, 53]]⟩ : GdalState).geomHeap[0]? =
      some (Geom.point [27, 53]) := by
  have h1 : transform_by_srs (fun _ _ => .ok ()) (fun _ _ g => g)
      ⟨[⟨"EPSG:4326", .authorityCompliant⟩, ⟨"EPSG:3857", .authorityCompliant⟩],
        [Geom.point [27, 53]]⟩ 0 0 1 =
      some (⟨[⟨"EPSG:4326", .authorityCompliant⟩,
        ⟨"EPSG:3857", .authorityCompliant⟩,
        ⟨"EPSG:4326", .traditionalGisOrder⟩,
        ⟨"EPSG:3857", .traditionalGisOrder⟩],
        [Geom.point [27, 53], Geom.point [27, 53]]⟩, .ok 1) := rfl
  have h := transform_by_srs_frame (fun _ _ => .ok ()) (fun _ _ g => g)
    ⟨[⟨"EPSG:4326", .authorityCompliant⟩, ⟨"EPSG:3857", .authorityCompliant⟩],
      [Geom.point [27, 53]]⟩ 0 0 1
    ⟨"EPSG:4326", .authorityCompliant⟩ ⟨"EPSG:3857", .authorityCompliant⟩
    (Geom.point [27, 53]) _ 1 rfl rfl rfl h1
  exact ⟨h1, h.1, h.2.1, h.2.2.1⟩

end GdalBoots
